import Mathlib

/-!
Verification of `prompt_toolkit/layout/scrollable_pane.py` (the
`ScrollablePane` virtual-scrolling compositor).

The Python source is shallowly embedded: Python `int` becomes `Int`
(arbitrary precision, may be negative), mutation of `self.vertical_scroll`
becomes explicit state passing, `dict`/`defaultdict` registries become
total functions into `Option` / functions with a default value, and the
copy `for` loops become structural recursion over the loop counter.
-/

namespace ScrollablePaneSpec

/-- `prompt_toolkit.data_structures.Point` (x, y coordinate pair). -/
structure Point where
  x : Int
  y : Int
deriving DecidableEq, Repr

/-- `prompt_toolkit.layout.screen.WritePosition`: axis-aligned rectangle
`{xpos, ypos, width, height}` in some screen's coordinate space. -/
structure WritePosition where
  xpos : Int
  ypos : Int
  width : Int
  height : Int
deriving DecidableEq, Repr

/-- `prompt_toolkit.layout.containers.ScrollOffsets` (only `top`/`bottom`
are used by `ScrollablePane`). -/
structure ScrollOffsets where
  top : Int
  bottom : Int
deriving DecidableEq, Repr

/-- `prompt_toolkit.layout.screen.Char`: a styled character cell. -/
structure Char where
  char : String
  style : String
deriving DecidableEq, Repr

/-- Rendering-unit identity (a `Window` object in the Python code); only
identity matters here, so a natural-number tag suffices. -/
abbrev Window := Nat

/-- Modelled from the spec: a `Screen` (virtual or real, same shape) is a
cell buffer addressable by row/column (a `defaultdict`, hence a total
function), a per-row/column zero-width-escape table, per-window cursor,
menu and write-position registries, a `show_cursor` flag and
`width`/`height` extents.  (`screen.py` is not part of the given sources;
this follows spec section 3.)  `data_buffer` is indexed row first, then
column, exactly like `screen.data_buffer[y][x]`. -/
structure Screen where
  data_buffer : Int → Int → Char
  zero_width_escapes : Int → Int → Option String
  cursor_positions : Window → Option Point
  menu_positions : Window → Option Point
  visible_windows_to_write_positions : Window → Option WritePosition
  show_cursor : Bool
  width : Int
  height : Int

/-- Modelled from the spec: a fresh `Screen(default_char=...)` — every cell
of the default-dict buffer holds the default char, all registries are
empty.  (`show_cursor` starts `true` as in `prompt_toolkit`'s `Screen`;
no claim depends on the initial value because the content render below is
an arbitrary screen transformer.) -/
def Screen.fresh (default_char : Char) : Screen where
  data_buffer := fun _ _ => default_char
  zero_width_escapes := fun _ _ => none
  cursor_positions := fun _ => none
  menu_positions := fun _ => none
  visible_windows_to_write_positions := fun _ => none
  show_cursor := true
  width := 0
  height := 0

/-- Modelled from the spec: a `MouseHandlers` hit-region map — a per-cell
registry of input-hit callbacks (callbacks identified by a tag). -/
structure MouseHandlers where
  handlers : Int → Int → Option Nat

/-- Modelled from the spec: a fresh, empty `MouseHandlers()`. -/
def MouseHandlers.fresh : MouseHandlers := ⟨fun _ _ => none⟩

/-- `prompt_toolkit.layout.dimension.Dimension`; only the `preferred`
field is read by `ScrollablePane.write_to_screen`. -/
structure Dimension where
  preferred : Int

/-- Modelled from the spec: the wrapped `Container` (content) as seen from
`ScrollablePane.write_to_screen`: a preferred-height negotiation and a
render step.  `render` stands for `content.write_to_screen(temp_screen,
temp_mouse_handlers, temp_write_position, parent_style, erase_bg, z_index)`
followed by `temp_screen.draw_all_floats()`: it transforms the screen and
the mouse-handler map it is given and may touch nothing else. -/
structure Content where
  preferred_height : Int → Int → Dimension
  render : Screen → MouseHandlers → WritePosition → String → Bool → Option Int →
    Screen × MouseHandlers

/-- The `ScrollablePane` state used by `write_to_screen` /
`_make_window_visible` (the optional explicit width/height overrides only
affect `preferred_width`/`preferred_height`, which no claim concerns, and
are omitted).  `vertical_scroll` is the mutable current top-row offset. -/
structure ScrollablePane where
  content : Content
  scroll_offsets : ScrollOffsets
  keep_cursor_visible : Bool
  keep_focused_window_visible : Bool
  max_available_height : Int
  vertical_scroll : Int

/-! ### The scroll resolver `_make_window_visible`

The Python body is factored into the cursor narrowing step, the window
narrowing step, the `min_scroll > max_scroll` collapse, and the final
clipping of `self.vertical_scroll`; composing them in order is exactly the
source. -/

/-- The `if self.keep_cursor_visible():` block of `_make_window_visible`:
narrow `(min_scroll, max_scroll)` according to the cursor of the focused
window. -/
def cursor_narrow (keep : Bool) (offsets : ScrollOffsets) (visible_height : Int)
    (cursor_position : Option Point) (r : Int × Int) : Int × Int :=
  if keep then
    match cursor_position with
    | some cp =>
        let cpos_min_scroll := cp.y - visible_height + 1 + offsets.bottom
        let cpos_max_scroll := cp.y - offsets.top
        (max r.1 cpos_min_scroll, max 0 (min r.2 cpos_max_scroll))
    | none => r
  else r

/-- The `if self.keep_focused_window_visible():` block of
`_make_window_visible`: narrow `(min_scroll, max_scroll)` according to the
focused window's write position on the temp screen. -/
def window_narrow (keep : Bool) (visible_height : Int)
    (visible_win_write_pos : WritePosition) (r : Int × Int) : Int × Int :=
  if keep then
    if visible_win_write_pos.height ≤ visible_height then
      (max r.1 (visible_win_write_pos.ypos + visible_win_write_pos.height - visible_height),
       min r.2 visible_win_write_pos.ypos)
    else
      (max r.1 visible_win_write_pos.ypos,
       min r.2 (visible_win_write_pos.ypos + visible_win_write_pos.height - visible_height))
  else r

/-- The feasible scroll range after both narrowing steps, starting from
`min_scroll = 0`, `max_scroll = virtual_height - visible_height`. -/
def scroll_range (p : ScrollablePane) (visible_height virtual_height : Int)
    (visible_win_write_pos : WritePosition) (cursor_position : Option Point) : Int × Int :=
  window_narrow p.keep_focused_window_visible visible_height visible_win_write_pos
    (cursor_narrow p.keep_cursor_visible p.scroll_offsets visible_height cursor_position
      (0, virtual_height - visible_height))

/-- `if min_scroll > max_scroll: min_scroll = max_scroll  # Should not happen.` -/
def collapse_range (r : Int × Int) : Int × Int :=
  if r.1 > r.2 then (r.2, r.2) else r

/-- The final clipping of `self.vertical_scroll` into `[min_scroll,
max_scroll]` (two sequential `if` statements, in source order). -/
def clip_scroll (vertical_scroll : Int) (r : Int × Int) : Int :=
  let vs := if vertical_scroll > r.2 then r.2 else vertical_scroll
  if vs < r.1 then r.1 else vs

/-- `ScrollablePane._make_window_visible`: returns the new value of
`self.vertical_scroll` (the Python method mutates it in place). -/
def make_window_visible (p : ScrollablePane) (visible_height virtual_height : Int)
    (visible_win_write_pos : WritePosition) (cursor_position : Option Point) : Int :=
  clip_scroll p.vertical_scroll
    (collapse_range (scroll_range p visible_height virtual_height
      visible_win_write_pos cursor_position))

/-! ### The viewport copier

The nested `for y in range(write_position.height): for x in
range(write_position.width):` loops of `write_to_screen`.  Each loop is
structural recursion on the (exclusive) upper bound: `copy_cols temp vs
xpos ypos y n` performs the writes for `x = 0, 1, ..., n-1` of row `y`, in
increasing order exactly like the Python loop, and `copy_rows ... n`
performs rows `y = 0, 1, ..., n-1`. -/

/-- One iteration of the inner loop body:
`row[x + xpos] = temp_row[x]` and, when `x` is present in the temp
zero-width-escape row, `zero_width_escapes[x + xpos] = temp_zero_width_escapes[x]`
(an absent entry leaves the real screen's entry untouched). -/
def copy_cell (temp : Screen) (vs xpos ypos : Int) (y x : Nat) (s : Screen) : Screen :=
  { s with
    data_buffer := fun r c =>
      if r = (y : Int) + ypos ∧ c = (x : Int) + xpos then
        temp.data_buffer ((y : Int) + vs) (x : Int)
      else s.data_buffer r c
    zero_width_escapes := fun r c =>
      if r = (y : Int) + ypos ∧ c = (x : Int) + xpos then
        match temp.zero_width_escapes ((y : Int) + vs) (x : Int) with
        | some e => some e
        | none => s.zero_width_escapes r c
      else s.zero_width_escapes r c }

/-- `for x in range(n)` over `copy_cell` (row `y`). -/
def copy_cols (temp : Screen) (vs xpos ypos : Int) (y : Nat) : Nat → Screen → Screen
  | 0, s => s
  | n + 1, s => copy_cell temp vs xpos ypos y n (copy_cols temp vs xpos ypos y n s)

/-- `for y in range(n)` over rows of width `w`. -/
def copy_rows (temp : Screen) (vs xpos ypos : Int) (w : Nat) : Nat → Screen → Screen
  | 0, s => s
  | n + 1, s => copy_cols temp vs xpos ypos n w (copy_rows temp vs xpos ypos w n s)

/-! ### `write_to_screen` -/

/-- The result of `ScrollablePane.write_to_screen`: the pane with its
(possibly) updated `vertical_scroll`, the mutated real screen, and the
caller's mouse-handler map (returned so that the embedding can state
whether the method writes to it). -/
structure WriteResult where
  pane : ScrollablePane
  screen : Screen
  mouse_handlers : MouseHandlers

/-- The virtual buffer height computed at the top of `write_to_screen`:
the content's preferred height against `self.max_available_height`, then
raised to at least `write_position.height`, then lowered to at most
`self.max_available_height` (in that order, as in the source). -/
def virtual_height_of (p : ScrollablePane) (write_position : WritePosition) : Int :=
  let virtual_height :=
    (p.content.preferred_height write_position.width p.max_available_height).preferred
  let virtual_height := max virtual_height write_position.height
  min virtual_height p.max_available_height

/-- The temp (virtual) screen after the content has rendered into it and
floats were drawn: `temp_screen = Screen(default_char=Char(" ",
parent_style))` rendered at `WritePosition(0, 0, virtual_width,
virtual_height)` with a fresh `MouseHandlers()`. -/
def temp_screen_of (p : ScrollablePane) (write_position : WritePosition)
    (parent_style : String) (erase_bg : Bool) (z_index : Option Int) : Screen :=
  (p.content.render (Screen.fresh ⟨" ", parent_style⟩) MouseHandlers.fresh
    ⟨0, 0, write_position.width, virtual_height_of p write_position⟩
    parent_style erase_bg z_index).1

/-- `ScrollablePane.write_to_screen`.  `focused_window` stands for
`get_app().layout.current_window` (the ambient focus query, injected as a
parameter).  The `try/except KeyError` around the registry lookup becomes
a `match` on the `Option`: `none` skips the scroll adjustment. -/
def write_to_screen (p : ScrollablePane) (screen : Screen)
    (mouse_handlers : MouseHandlers) (write_position : WritePosition)
    (parent_style : String) (erase_bg : Bool) (z_index : Option Int)
    (focused_window : Window) : WriteResult :=
  let virtual_height := virtual_height_of p write_position
  let temp_screen := temp_screen_of p write_position parent_style erase_bg z_index
  let vertical_scroll :=
    match temp_screen.visible_windows_to_write_positions focused_window with
    | none => p.vertical_scroll
    | some visible_win_write_pos =>
        make_window_visible p write_position.height virtual_height
          visible_win_write_pos (temp_screen.cursor_positions focused_window)
  let ypos := write_position.ypos
  let xpos := write_position.xpos
  let screen := copy_rows temp_screen vertical_scroll xpos ypos
    write_position.width.toNat write_position.height.toNat screen
  let screen :=
    { screen with
      width := max screen.width (xpos + write_position.width)
      height := max screen.height (ypos + write_position.height)
      visible_windows_to_write_positions := fun win =>
        match temp_screen.visible_windows_to_write_positions win with
        | some write_pos =>
            some { xpos := write_pos.xpos + xpos
                   ypos := write_pos.ypos + ypos - vertical_scroll
                   height := write_pos.height
                   width := write_pos.width }
        | none => screen.visible_windows_to_write_positions win
      show_cursor := screen.show_cursor || temp_screen.show_cursor
      cursor_positions := fun window =>
        match temp_screen.cursor_positions window with
        | some point => some ⟨point.x + xpos, point.y + ypos - vertical_scroll⟩
        | none => screen.cursor_positions window
      menu_positions := fun window =>
        match temp_screen.menu_positions window with
        | some point => some ⟨point.x + xpos, point.y + ypos - vertical_scroll⟩
        | none => screen.menu_positions window }
  { pane := { p with vertical_scroll := vertical_scroll }
    screen := screen
    mouse_handlers := mouse_handlers }

/-! ### Concrete instances, used to evaluate the definitions on closed inputs -/

/-- A concrete content: renders a recognizable coordinate pattern into the
buffer, registers window `0` at rows `[10, 14)` (write position
`(0, 10, 8, 4)`), reports a cursor at `(1, 12)`, a menu anchor at
`(0, 11)`, and one zero-width escape at row `12`, column `2`. -/
def demoContent : Content where
  preferred_height := fun _ _ => ⟨40⟩
  render := fun temp m _ _ _ _ =>
    ({ temp with
        data_buffer := fun r c => ⟨"v" ++ toString r, "c" ++ toString c⟩
        zero_width_escapes := fun r c => if r = 12 ∧ c = 2 then some "esc" else none
        cursor_positions := fun w => if w = 0 then some ⟨1, 12⟩ else none
        menu_positions := fun w => if w = 0 then some ⟨0, 11⟩ else none
        visible_windows_to_write_positions := fun w =>
          if w = 0 then some ⟨0, 10, 8, 4⟩ else none
        show_cursor := true },
     m)

/-- A pane around `demoContent` with both visibility policies enabled. -/
def demoPane : ScrollablePane where
  content := demoContent
  scroll_offsets := ⟨1, 1⟩
  keep_cursor_visible := true
  keep_focused_window_visible := true
  max_available_height := 50
  vertical_scroll := 0

/-- A viewport of size `3 × 4` at real origin `(100, 200)`. -/
def demoWP : WritePosition := ⟨100, 200, 3, 4⟩

/-- A concrete real screen with pre-existing content, an existing
zero-width escape and an existing registry entry for window `9`. -/
def demoScreen : Screen where
  data_buffer := fun r c => ⟨"R" ++ toString r, "C" ++ toString c⟩
  zero_width_escapes := fun r c => if r = 0 ∧ c = 0 then some "z" else none
  cursor_positions := fun w => if w = 9 then some ⟨7, 7⟩ else none
  menu_positions := fun _ => none
  visible_windows_to_write_positions := fun w => if w = 9 then some ⟨1, 2, 3, 4⟩ else none
  show_cursor := false
  width := 0
  height := 0

/-- The spec's scenario pane: offsets `{top 1, bottom 1}`,
`keep_cursor_visible` on, no window constraint active, previous scroll
`0`. -/
def scenarioPane : ScrollablePane where
  content := demoContent
  scroll_offsets := ⟨1, 1⟩
  keep_cursor_visible := true
  keep_focused_window_visible := false
  max_available_height := 10000
  vertical_scroll := 0

/-- The spec's scenario viewport: `visible_height = 20` (origin and width
irrelevant to the resolver). -/
def scenarioWP : WritePosition := ⟨0, 0, 20, 100⟩

/-- A pane exhibiting an irreconcilable cursor/window conflict: zero
scroll offsets, both policies on, previous scroll `90`. -/
def c5Pane : ScrollablePane where
  content := demoContent
  scroll_offsets := ⟨0, 0⟩
  keep_cursor_visible := true
  keep_focused_window_visible := true
  max_available_height := 10000
  vertical_scroll := 90

/-- Focused window at rows `[50, 55)` — far away from the cursor row `2`. -/
def c5WP : WritePosition := ⟨0, 50, 8, 5⟩

/-- Content whose preferred height is `0`, used with a degenerate
`max_available_height` smaller than the viewport height. -/
def c6Content : Content where
  preferred_height := fun _ _ => ⟨0⟩
  render := fun temp m _ _ _ _ => (temp, m)

/-- A degenerate configuration: `max_available_height = 3` is smaller
than the viewport height `5` of `c6WP`. -/
def c6Pane : ScrollablePane where
  content := c6Content
  scroll_offsets := ⟨1, 1⟩
  keep_cursor_visible := true
  keep_focused_window_visible := true
  max_available_height := 3
  vertical_scroll := 0

/-- A viewport of height `5` (exceeding `c6Pane.max_available_height`). -/
def c6WP : WritePosition := ⟨0, 0, 10, 5⟩

/-! ### Lemmas about the scroll resolver -/

theorem collapse_range_fst_le_snd (r : Int × Int) :
    (collapse_range r).1 ≤ (collapse_range r).2 := by
  unfold collapse_range
  split
  · exact le_refl _
  · omega

theorem collapse_range_snd (r : Int × Int) : (collapse_range r).2 = r.2 := by
  unfold collapse_range
  split <;> rfl

theorem collapse_range_fst_nonneg {r : Int × Int} (h1 : 0 ≤ r.1) (h2 : 0 ≤ r.2) :
    0 ≤ (collapse_range r).1 := by
  unfold collapse_range
  split <;> assumption

/-- The two final `if` statements compute precisely
`max min_scroll (min max_scroll vertical_scroll)`. -/
theorem clip_scroll_eq (vs : Int) (r : Int × Int) :
    clip_scroll vs r = max r.1 (min r.2 vs) := by
  simp only [clip_scroll]
  split <;> split <;> omega

theorem clip_scroll_mem (vs : Int) {r : Int × Int} (h : r.1 ≤ r.2) :
    r.1 ≤ clip_scroll vs r ∧ clip_scroll vs r ≤ r.2 := by
  rw [clip_scroll_eq]
  omega

theorem cursor_narrow_bounds (k : Bool) (o : ScrollOffsets) (h : Int)
    (cp : Option Point) (r : Int × Int) (M : Int)
    (h1 : 0 ≤ r.1) (h2 : 0 ≤ r.2) (h3 : r.2 ≤ M) (hM : 0 ≤ M) :
    0 ≤ (cursor_narrow k o h cp r).1 ∧ 0 ≤ (cursor_narrow k o h cp r).2 ∧
      (cursor_narrow k o h cp r).2 ≤ M := by
  cases k <;> cases cp <;> simp only [cursor_narrow] <;>
    first
      | exact ⟨h1, h2, h3⟩
      | refine ⟨?_, ?_, ?_⟩ <;> simp <;> omega

/-- The window narrowing step when the focused window fits the viewport:
intersect with `[wy + wh - visible_height, wy]`. -/
theorem window_narrow_fits (h : Int) (wp : WritePosition) (r : Int × Int)
    (hh : wp.height ≤ h) :
    window_narrow true h wp r =
      (max r.1 (wp.ypos + wp.height - h), min r.2 wp.ypos) := by
  simp [window_narrow, hh]

/-- The window narrowing step when the focused window exceeds the
viewport: intersect with `[wy, wy + wh - visible_height]`. -/
theorem window_narrow_oversized (h : Int) (wp : WritePosition) (r : Int × Int)
    (hh : h < wp.height) :
    window_narrow true h wp r =
      (max r.1 wp.ypos, min r.2 (wp.ypos + wp.height - h)) := by
  simp [window_narrow, not_le.mpr hh]

theorem window_narrow_bounds (k : Bool) (h : Int) (wp : WritePosition)
    (hwy : 0 ≤ wp.ypos) (r : Int × Int) (M : Int)
    (h1 : 0 ≤ r.1) (h2 : 0 ≤ r.2) (h3 : r.2 ≤ M) :
    0 ≤ (window_narrow k h wp r).1 ∧ 0 ≤ (window_narrow k h wp r).2 ∧
      (window_narrow k h wp r).2 ≤ M := by
  cases k with
  | false => simpa [window_narrow] using ⟨h1, h2, h3⟩
  | true =>
    rcases le_or_lt wp.height h with hh | hh
    · rw [window_narrow_fits h wp r hh]
      refine ⟨?_, ?_, ?_⟩ <;> simp only [Prod.fst, Prod.snd] <;> omega
    · rw [window_narrow_oversized h wp r hh]
      refine ⟨?_, ?_, ?_⟩ <;> simp only [Prod.fst, Prod.snd] <;> omega

theorem clip_collapse_bounds {r : Int × Int} {M : Int} (vs : Int)
    (h1 : 0 ≤ r.1) (h2 : 0 ≤ r.2) (h3 : r.2 ≤ M) :
    0 ≤ clip_scroll vs (collapse_range r) ∧
      clip_scroll vs (collapse_range r) ≤ M := by
  have a := collapse_range_fst_le_snd r
  have b := collapse_range_snd r
  have c := collapse_range_fst_nonneg h1 h2
  have d := clip_scroll_mem vs a
  omega

/-- `_make_window_visible` always returns a scroll in
`[0, virtual_height - visible_height]`, provided the interval is non-empty
and the focused window's write position has a nonnegative top row. -/
theorem make_window_visible_bounds (p : ScrollablePane)
    (visible_height virtual_height : Int) (wp : WritePosition) (cp : Option Point)
    (hvh : visible_height ≤ virtual_height) (hwy : 0 ≤ wp.ypos) :
    0 ≤ make_window_visible p visible_height virtual_height wp cp ∧
      make_window_visible p visible_height virtual_height wp cp ≤
        virtual_height - visible_height := by
  have hc := cursor_narrow_bounds p.keep_cursor_visible p.scroll_offsets
    visible_height cp (0, virtual_height - visible_height)
    (virtual_height - visible_height) (le_refl 0) (by omega) (le_refl _) (by omega)
  have hw := window_narrow_bounds p.keep_focused_window_visible visible_height wp hwy
    (cursor_narrow p.keep_cursor_visible p.scroll_offsets visible_height cp
      (0, virtual_height - visible_height))
    (virtual_height - visible_height) hc.1 hc.2.1 hc.2.2
  unfold make_window_visible scroll_range
  exact clip_collapse_bounds p.vertical_scroll hw.1 hw.2.1 hw.2.2

/-! ### Characterization of the copy loops -/

/-- What one row pass writes to the cell buffer: row `↑y + ypos`, columns
`[xpos, xpos + w)`, values taken from temp row `↑y + vs`. -/
theorem copy_cols_db (temp : Screen) (vs xpos ypos : Int) (y : Nat) :
    ∀ (w : Nat) (s : Screen) (r c : Int),
    (copy_cols temp vs xpos ypos y w s).data_buffer r c =
      if r = (y : Int) + ypos ∧ xpos ≤ c ∧ c < xpos + (w : Int) then
        temp.data_buffer ((y : Int) + vs) (c - xpos)
      else s.data_buffer r c := by
  intro w
  induction w with
  | zero =>
    intro s r c
    simp only [copy_cols]
    rw [if_neg]
    rintro ⟨-, h2, h3⟩
    omega
  | succ n ih =>
    intro s r c
    simp only [copy_cols, copy_cell]
    rw [ih]
    by_cases h1 : r = (y : Int) + ypos ∧ c = (n : Int) + xpos
    · rw [if_pos h1, if_pos (by omega)]
      have hcx : c - xpos = (n : Int) := by omega
      rw [hcx]
    · rw [if_neg h1]
      by_cases h2 : r = (y : Int) + ypos ∧ xpos ≤ c ∧ c < xpos + (n : Int)
      · rw [if_pos h2, if_pos (by omega)]
      · rw [if_neg h2, if_neg (by omega)]

/-- What one row pass writes to the zero-width-escape table: at each
written cell, a temp entry overwrites and an absent temp entry leaves the
previous entry in place. -/
theorem copy_cols_zwe (temp : Screen) (vs xpos ypos : Int) (y : Nat) :
    ∀ (w : Nat) (s : Screen) (r c : Int),
    (copy_cols temp vs xpos ypos y w s).zero_width_escapes r c =
      if r = (y : Int) + ypos ∧ xpos ≤ c ∧ c < xpos + (w : Int) then
        match temp.zero_width_escapes ((y : Int) + vs) (c - xpos) with
        | some e => some e
        | none => s.zero_width_escapes r c
      else s.zero_width_escapes r c := by
  intro w
  induction w with
  | zero =>
    intro s r c
    simp only [copy_cols]
    rw [if_neg]
    rintro ⟨-, h2, h3⟩
    omega
  | succ n ih =>
    intro s r c
    simp only [copy_cols, copy_cell]
    by_cases h1 : r = (y : Int) + ypos ∧ c = (n : Int) + xpos
    · rw [if_pos h1, if_pos (by omega)]
      have hcx : c - xpos = (n : Int) := by omega
      rw [hcx, ih, if_neg (by omega)]
    · rw [if_neg h1, ih]
      by_cases h2 : r = (y : Int) + ypos ∧ xpos ≤ c ∧ c < xpos + (n : Int)
      · rw [if_pos h2, if_pos (by omega)]
      · rw [if_neg h2, if_neg (by omega)]

/-- What the full copy writes to the cell buffer: the `[ypos, ypos + n) ×
[xpos, xpos + w)` viewport rectangle receives the virtual cells shifted
down by `vs`; everything else is untouched. -/
theorem copy_rows_db (temp : Screen) (vs xpos ypos : Int) (w : Nat) :
    ∀ (n : Nat) (s : Screen) (r c : Int),
    (copy_rows temp vs xpos ypos w n s).data_buffer r c =
      if ypos ≤ r ∧ r < ypos + (n : Int) ∧ xpos ≤ c ∧ c < xpos + (w : Int) then
        temp.data_buffer (r - ypos + vs) (c - xpos)
      else s.data_buffer r c := by
  intro n
  induction n with
  | zero =>
    intro s r c
    simp only [copy_rows]
    rw [if_neg]
    rintro ⟨h1, h2, -⟩
    omega
  | succ n ih =>
    intro s r c
    simp only [copy_rows]
    rw [copy_cols_db, ih]
    by_cases h1 : r = (n : Int) + ypos ∧ xpos ≤ c ∧ c < xpos + (w : Int)
    · rw [if_pos h1, if_pos (by omega)]
      have hry : (n : Int) + vs = r - ypos + vs := by omega
      rw [hry]
    · rw [if_neg h1]
      by_cases h2 : ypos ≤ r ∧ r < ypos + (n : Int) ∧ xpos ≤ c ∧ c < xpos + (w : Int)
      · rw [if_pos h2, if_pos (by omega)]
      · rw [if_neg h2, if_neg (by omega)]

/-- What the full copy writes to the zero-width-escape table. -/
theorem copy_rows_zwe (temp : Screen) (vs xpos ypos : Int) (w : Nat) :
    ∀ (n : Nat) (s : Screen) (r c : Int),
    (copy_rows temp vs xpos ypos w n s).zero_width_escapes r c =
      if ypos ≤ r ∧ r < ypos + (n : Int) ∧ xpos ≤ c ∧ c < xpos + (w : Int) then
        match temp.zero_width_escapes (r - ypos + vs) (c - xpos) with
        | some e => some e
        | none => s.zero_width_escapes r c
      else s.zero_width_escapes r c := by
  intro n
  induction n with
  | zero =>
    intro s r c
    simp only [copy_rows]
    rw [if_neg]
    rintro ⟨h1, h2, -⟩
    omega
  | succ n ih =>
    intro s r c
    simp only [copy_rows]
    rw [copy_cols_zwe]
    by_cases h1 : r = (n : Int) + ypos ∧ xpos ≤ c ∧ c < xpos + (w : Int)
    · rw [if_pos h1, if_pos (by omega)]
      have hry : (n : Int) + vs = r - ypos + vs := by omega
      rw [hry, ih, if_neg (by omega)]
    · rw [if_neg h1, ih]
      by_cases h2 : ypos ≤ r ∧ r < ypos + (n : Int) ∧ xpos ≤ c ∧ c < xpos + (w : Int)
      · rw [if_pos h2, if_pos (by omega)]
      · rw [if_neg h2, if_neg (by omega)]

/-- When the narrowed range is satisfiable, the collapse is the identity
and the resolved scroll lies inside the range. -/
theorem make_window_visible_mem (p : ScrollablePane) (h vh : Int)
    (wp : WritePosition) (cp : Option Point)
    (hsat : (scroll_range p h vh wp cp).1 ≤ (scroll_range p h vh wp cp).2) :
    (scroll_range p h vh wp cp).1 ≤ make_window_visible p h vh wp cp ∧
      make_window_visible p h vh wp cp ≤ (scroll_range p h vh wp cp).2 := by
  unfold make_window_visible
  have hcr : collapse_range (scroll_range p h vh wp cp) = scroll_range p h vh wp cp := by
    unfold collapse_range
    rw [if_neg (by omega)]
  rw [hcr]
  exact clip_scroll_mem p.vertical_scroll hsat

/-! ### Claim theorems -/

/-- **C1**: for every call to `write_to_screen` in which the focused
window is found in the virtual screen's registry (registered write
positions having a nonnegative top row, as positions drawn on the virtual
screen do), after `_make_window_visible` returns, `vertical_scroll` lies
in `[0, virtual_height - visible_height]` whenever that interval is
non-empty, i.e. whenever `virtual_height ≥ visible_height` with
`visible_height = write_position.height`. -/
theorem C1_vertical_scroll_in_range (p : ScrollablePane) (screen : Screen)
    (m : MouseHandlers) (wp : WritePosition) (ps : String) (eb : Bool)
    (z : Option Int) (fw : Window) (vwp : WritePosition)
    (hfound : (temp_screen_of p wp ps eb z).visible_windows_to_write_positions fw
      = some vwp)
    (hwy : 0 ≤ vwp.ypos)
    (hvh : wp.height ≤ virtual_height_of p wp) :
    0 ≤ (write_to_screen p screen m wp ps eb z fw).pane.vertical_scroll ∧
      (write_to_screen p screen m wp ps eb z fw).pane.vertical_scroll ≤
        virtual_height_of p wp - wp.height := by
  have hb := make_window_visible_bounds p wp.height (virtual_height_of p wp) vwp
    ((temp_screen_of p wp ps eb z).cursor_positions fw) hvh hwy
  simp only [write_to_screen, hfound]
  exact hb

/-- Witness for C1: a concrete call (the scroll resolves to `10`, inside
`[0, 36]`). -/
theorem C1_vertical_scroll_in_range_witness :
    0 ≤ (write_to_screen demoPane demoScreen MouseHandlers.fresh demoWP "s" false
        none 0).pane.vertical_scroll ∧
      (write_to_screen demoPane demoScreen MouseHandlers.fresh demoWP "s" false
        none 0).pane.vertical_scroll ≤
        virtual_height_of demoPane demoWP - demoWP.height :=
  C1_vertical_scroll_in_range demoPane demoScreen MouseHandlers.fresh demoWP "s" false
    none 0 ⟨0, 10, 8, 4⟩ (by decide) (by decide) (by decide)

/-- **C3**: cursor-visibility narrowing computes exactly
`min_scroll := max min_scroll (cy - visible_height + 1 + offsets.bottom)`
and `max_scroll := max 0 (min max_scroll (cy - offsets.top))`; on the
spec's scenario (`virtual_height = 100`, `visible_height = 20`, offsets
`{1, 1}`, cursor row `50`, window constraint inactive) the range is
`[32, 49]` and a previous `vertical_scroll` of `0` resolves to `32`. -/
theorem C3_cursor_narrowing (o : ScrollOffsets) (h : Int) (c : Point) (r : Int × Int) :
    cursor_narrow true o h (some c) r =
      (max r.1 (c.y - h + 1 + o.bottom), max 0 (min r.2 (c.y - o.top))) ∧
    scroll_range scenarioPane 20 100 scenarioWP (some ⟨0, 50⟩) = (32, 49) ∧
    make_window_visible scenarioPane 20 100 scenarioWP (some ⟨0, 50⟩) = 32 :=
  ⟨rfl, by decide, by decide⟩

/-- **C4**: window-visibility narrowing intersects the feasible range with
`[wy + wh - visible_height, wy]` when the focused unit fits
(`wh ≤ visible_height`) and with `[wy, wy + wh - visible_height]` when it
does not; consequently, whenever the narrowed range is satisfiable, a
fitting unit's row range `[wy, wy + wh)` lies within
`[vertical_scroll, vertical_scroll + visible_height)` after resolution,
and for an oversized unit the viewport's row range lies inside the unit's
row range. -/
theorem C4_window_visibility (p : ScrollablePane) (h vh : Int)
    (wp : WritePosition) (cp : Option Point) (r : Int × Int)
    (hkeep : p.keep_focused_window_visible = true) :
    (wp.height ≤ h →
      window_narrow true h wp r =
        (max r.1 (wp.ypos + wp.height - h), min r.2 wp.ypos)) ∧
    (h < wp.height →
      window_narrow true h wp r =
        (max r.1 wp.ypos, min r.2 (wp.ypos + wp.height - h))) ∧
    (wp.height ≤ h →
      (scroll_range p h vh wp cp).1 ≤ (scroll_range p h vh wp cp).2 →
      make_window_visible p h vh wp cp ≤ wp.ypos ∧
        wp.ypos + wp.height ≤ make_window_visible p h vh wp cp + h) ∧
    (h < wp.height →
      (scroll_range p h vh wp cp).1 ≤ (scroll_range p h vh wp cp).2 →
      wp.ypos ≤ make_window_visible p h vh wp cp ∧
        make_window_visible p h vh wp cp + h ≤ wp.ypos + wp.height) := by
  have hsr : scroll_range p h vh wp cp = window_narrow true h wp
      (cursor_narrow p.keep_cursor_visible p.scroll_offsets h cp (0, vh - h)) := by
    rw [scroll_range, hkeep]
  refine ⟨fun hh => window_narrow_fits h wp r hh,
    fun hh => window_narrow_oversized h wp r hh, ?_, ?_⟩
  · intro hh hsat
    have hmem := make_window_visible_mem p h vh wp cp hsat
    rw [hsr, window_narrow_fits _ _ _ hh] at hmem
    dsimp only at hmem
    omega
  · intro hh hsat
    have hmem := make_window_visible_mem p h vh wp cp hsat
    rw [hsr, window_narrow_oversized _ _ _ hh] at hmem
    dsimp only at hmem
    omega

/-- Witness for C4: the focused window `(0, 10, 8, 4)` fits the viewport
of height `4`; the resolved scroll (`10`) puts rows `[10, 14)` exactly in
view. -/
theorem C4_window_visibility_witness :
    make_window_visible demoPane 4 40 ⟨0, 10, 8, 4⟩ (some ⟨1, 12⟩) ≤ (10 : Int) ∧
      (10 : Int) + 4 ≤ make_window_visible demoPane 4 40 ⟨0, 10, 8, 4⟩ (some ⟨1, 12⟩) + 4 :=
  (C4_window_visibility demoPane 4 40 ⟨0, 10, 8, 4⟩ (some ⟨1, 12⟩) (0, 36)
    (by decide)).2.2.1 (by decide) (by decide)

/-- **C5 counterexample**: with cursor row `2` (offsets `{0, 0}`) and the
focused window at rows `[50, 55)` in a `100`-row virtual screen behind a
`10`-row viewport, the narrowing yields `min_scroll = 45 > max_scroll = 2`;
the resolver collapses and returns `2` — the cursor-visibility upper bound
— which violates the window-visibility interval `[45, 50]`, so the
window-visibility constraint does *not* win. -/
theorem C5_counterexample :
    (scroll_range c5Pane 10 100 c5WP (some ⟨0, 2⟩)).2 <
      (scroll_range c5Pane 10 100 c5WP (some ⟨0, 2⟩)).1 ∧
    make_window_visible c5Pane 10 100 c5WP (some ⟨0, 2⟩) = 2 ∧
    ¬(c5WP.ypos + c5WP.height - 10 ≤ make_window_visible c5Pane 10 100 c5WP (some ⟨0, 2⟩) ∧
      make_window_visible c5Pane 10 100 c5WP (some ⟨0, 2⟩) ≤ c5WP.ypos) := by
  decide

/-- **C5 amended**: whenever the intersected constraints leave
`min_scroll > max_scroll`, the interval is collapsed by setting
`min_scroll := max_scroll` and the resulting `vertical_scroll` equals the
collapsed `max_scroll` — the smallest upper bound over all enabled
constraints (which is the window-visibility bound only when the window
step produced the binding upper bound). -/
theorem C5_collapse_uses_upper_bound (p : ScrollablePane) (h vh : Int)
    (wp : WritePosition) (cp : Option Point)
    (hlt : (scroll_range p h vh wp cp).2 < (scroll_range p h vh wp cp).1) :
    make_window_visible p h vh wp cp = (scroll_range p h vh wp cp).2 := by
  unfold make_window_visible
  have hcr : collapse_range (scroll_range p h vh wp cp) =
      ((scroll_range p h vh wp cp).2, (scroll_range p h vh wp cp).2) := by
    unfold collapse_range
    rw [if_pos (by omega)]
  rw [hcr, clip_scroll_eq]
  dsimp only
  omega

/-- Witness for the amended C5 at the conflict instance. -/
theorem C5_collapse_uses_upper_bound_witness :
    make_window_visible c5Pane 10 100 c5WP (some ⟨0, 2⟩) =
      (scroll_range c5Pane 10 100 c5WP (some ⟨0, 2⟩)).2 :=
  C5_collapse_uses_upper_bound c5Pane 10 100 c5WP (some ⟨0, 2⟩) (by decide)

/-- **C7**: the final clamping step is a fixed point on in-range values:
an incoming `vertical_scroll` already inside the resolved
`[min_scroll, max_scroll]` is left exactly unchanged; one above is set to
`max_scroll`, one below to `min_scroll`. -/
theorem C7_clip_fixed_point (p : ScrollablePane) (h vh : Int)
    (wp : WritePosition) (cp : Option Point) :
    ((collapse_range (scroll_range p h vh wp cp)).1 ≤ p.vertical_scroll →
      p.vertical_scroll ≤ (collapse_range (scroll_range p h vh wp cp)).2 →
      make_window_visible p h vh wp cp = p.vertical_scroll) ∧
    ((collapse_range (scroll_range p h vh wp cp)).2 < p.vertical_scroll →
      make_window_visible p h vh wp cp =
        (collapse_range (scroll_range p h vh wp cp)).2) ∧
    (p.vertical_scroll < (collapse_range (scroll_range p h vh wp cp)).1 →
      make_window_visible p h vh wp cp =
        (collapse_range (scroll_range p h vh wp cp)).1) := by
  have hle := collapse_range_fst_le_snd (scroll_range p h vh wp cp)
  unfold make_window_visible
  rw [clip_scroll_eq]
  exact ⟨fun a b => by omega, fun a => by omega, fun a => by omega⟩

/-- Witness for C7: the previous scroll `0` lies below the resolved range
`[10, 10]`, so resolution pulls it up to the lower bound. -/
theorem C7_clip_fixed_point_witness :
    make_window_visible demoPane 4 40 ⟨0, 10, 8, 4⟩ (some ⟨1, 12⟩) =
      (collapse_range (scroll_range demoPane 4 40 ⟨0, 10, 8, 4⟩ (some ⟨1, 12⟩))).1 :=
  (C7_clip_fixed_point demoPane 4 40 ⟨0, 10, 8, 4⟩ (some ⟨1, 12⟩)).2.2 (by decide)

/-- The real screen's cell buffer after `write_to_screen` is the one
produced by the copy loops (the trailing registry/extent updates do not
touch it). -/
theorem write_to_screen_db_eq (p : ScrollablePane) (screen : Screen)
    (m : MouseHandlers) (wp : WritePosition) (ps : String) (eb : Bool)
    (z : Option Int) (fw : Window) :
    (write_to_screen p screen m wp ps eb z fw).screen.data_buffer =
      (copy_rows (temp_screen_of p wp ps eb z)
        ((write_to_screen p screen m wp ps eb z fw).pane.vertical_scroll)
        wp.xpos wp.ypos wp.width.toNat wp.height.toNat screen).data_buffer := rfl

/-- Likewise for the zero-width-escape table. -/
theorem write_to_screen_zwe_eq (p : ScrollablePane) (screen : Screen)
    (m : MouseHandlers) (wp : WritePosition) (ps : String) (eb : Bool)
    (z : Option Int) (fw : Window) :
    (write_to_screen p screen m wp ps eb z fw).screen.zero_width_escapes =
      (copy_rows (temp_screen_of p wp ps eb z)
        ((write_to_screen p screen m wp ps eb z fw).pane.vertical_scroll)
        wp.xpos wp.ypos wp.width.toNat wp.height.toNat screen).zero_width_escapes := rfl

/-- **C2**: for a call with `write_position = (X, Y, W, H)` and resolved
scroll `S`, and all `0 ≤ x < W`, `0 ≤ y < H`, the real screen's cell at
`(X + x, Y + y)` after the call equals the virtual screen's cell at
`(x, y + S)`, and any zero-width-escape entry of the virtual screen at row
`y + S`, column `x` is copied to the real screen at row `Y + y`, column
`X + x`. -/
theorem C2_copy_correctness (p : ScrollablePane) (screen : Screen)
    (m : MouseHandlers) (wp : WritePosition) (ps : String) (eb : Bool)
    (z : Option Int) (fw : Window) (x y : Int)
    (hx0 : 0 ≤ x) (hx : x < wp.width) (hy0 : 0 ≤ y) (hy : y < wp.height) :
    (write_to_screen p screen m wp ps eb z fw).screen.data_buffer
        (wp.ypos + y) (wp.xpos + x) =
      (temp_screen_of p wp ps eb z).data_buffer
        (y + (write_to_screen p screen m wp ps eb z fw).pane.vertical_scroll) x ∧
    (∀ e, (temp_screen_of p wp ps eb z).zero_width_escapes
        (y + (write_to_screen p screen m wp ps eb z fw).pane.vertical_scroll) x = some e →
      (write_to_screen p screen m wp ps eb z fw).screen.zero_width_escapes
        (wp.ypos + y) (wp.xpos + x) = some e) := by
  have e1 : wp.ypos + y - wp.ypos = y := by omega
  have e2 : wp.xpos + x - wp.xpos = x := by omega
  constructor
  · rw [write_to_screen_db_eq, copy_rows_db, if_pos (by omega), e1, e2]
  · intro e he
    rw [write_to_screen_zwe_eq, copy_rows_zwe, if_pos (by omega), e1, e2, he]

/-- Witness for C2: in the concrete call the scroll resolves to `10`, so
real cell `(102, 202)` receives virtual cell `(2, 12)` and the escape
registered there. -/
theorem C2_copy_correctness_witness :
    (write_to_screen demoPane demoScreen MouseHandlers.fresh demoWP "s" false
        none 0).screen.data_buffer (demoWP.ypos + 2) (demoWP.xpos + 2) =
      (temp_screen_of demoPane demoWP "s" false none).data_buffer
        (2 + (write_to_screen demoPane demoScreen MouseHandlers.fresh demoWP "s" false
          none 0).pane.vertical_scroll) 2 ∧
    (write_to_screen demoPane demoScreen MouseHandlers.fresh demoWP "s" false
        none 0).screen.zero_width_escapes (demoWP.ypos + 2) (demoWP.xpos + 2) =
      some "esc" :=
  ⟨(C2_copy_correctness demoPane demoScreen MouseHandlers.fresh demoWP "s" false none 0
      2 2 (by decide) (by decide) (by decide) (by decide)).1,
   (C2_copy_correctness demoPane demoScreen MouseHandlers.fresh demoWP "s" false none 0
      2 2 (by decide) (by decide) (by decide) (by decide)).2 "esc" (by decide)⟩

/-- **C6 counterexample**: with `max_available_height = 3` and a viewport
of height `5`, the clamp yields `virtual_height = 3 < 5 = visible_height`,
so `virtual_height ≥ visible_height` does not hold for every configured
`max_available_height` (the upper cap is applied last). -/
theorem C6_counterexample :
    virtual_height_of c6Pane c6WP = 3 ∧
      ¬(c6WP.height ≤ virtual_height_of c6Pane c6WP) := by
  decide

/-- **C6 amended**: `virtual_height` equals the content's preferred height
raised to at least `write_position.height` and then capped at
`max_available_height`; consequently `virtual_height ≥ visible_height`
whenever `max_available_height ≥ write_position.height` (the cap, applied
last, wins in the degenerate configuration `max_available_height <
write_position.height`). -/
theorem C6_virtual_height (p : ScrollablePane) (wp : WritePosition) :
    virtual_height_of p wp =
      min (max (p.content.preferred_height wp.width p.max_available_height).preferred
        wp.height) p.max_available_height ∧
    (wp.height ≤ p.max_available_height → wp.height ≤ virtual_height_of p wp) := by
  refine ⟨rfl, fun hmah => ?_⟩
  simp only [virtual_height_of]
  omega

/-- Witness for the amended C6 at a concrete pane and viewport. -/
theorem C6_virtual_height_witness :
    demoWP.height ≤ virtual_height_of demoPane demoWP :=
  (C6_virtual_height demoPane demoWP).2 (by decide)

/-- **C8**: when the focused window is absent from the virtual screen's
window registry, `vertical_scroll` after the call equals `vertical_scroll`
before the call (the resolver is skipped; the `KeyError` is swallowed by
`try/except`, modelled by the total `match`), and the viewport is still
copied using the previous offset. -/
theorem C8_absent_focus_stability (p : ScrollablePane) (screen : Screen)
    (m : MouseHandlers) (wp : WritePosition) (ps : String) (eb : Bool)
    (z : Option Int) (fw : Window)
    (habsent : (temp_screen_of p wp ps eb z).visible_windows_to_write_positions fw
      = none) :
    (write_to_screen p screen m wp ps eb z fw).pane.vertical_scroll =
      p.vertical_scroll ∧
    (∀ x y : Int, 0 ≤ x → x < wp.width → 0 ≤ y → y < wp.height →
      (write_to_screen p screen m wp ps eb z fw).screen.data_buffer
          (wp.ypos + y) (wp.xpos + x) =
        (temp_screen_of p wp ps eb z).data_buffer (y + p.vertical_scroll) x) := by
  have hvs : (write_to_screen p screen m wp ps eb z fw).pane.vertical_scroll =
      p.vertical_scroll := by
    simp only [write_to_screen, habsent]
  refine ⟨hvs, fun x y hx0 hx hy0 hy => ?_⟩
  have e1 : wp.ypos + y - wp.ypos = y := by omega
  have e2 : wp.xpos + x - wp.xpos = x := by omega
  rw [write_to_screen_db_eq, copy_rows_db, if_pos (by omega), e1, e2, hvs]

/-- Witness for C8: window `3` is not registered by `demoContent`, so the
call leaves the scroll at `0` and copies rows `[0, 4)` of the virtual
screen. -/
theorem C8_absent_focus_stability_witness :
    (write_to_screen demoPane demoScreen MouseHandlers.fresh demoWP "s" false
        none 3).pane.vertical_scroll = demoPane.vertical_scroll ∧
    (write_to_screen demoPane demoScreen MouseHandlers.fresh demoWP "s" false
        none 3).screen.data_buffer (demoWP.ypos + 1) (demoWP.xpos + 1) =
      (temp_screen_of demoPane demoWP "s" false none).data_buffer
        (1 + demoPane.vertical_scroll) 1 :=
  ⟨(C8_absent_focus_stability demoPane demoScreen MouseHandlers.fresh demoWP "s" false
      none 3 (by decide)).1,
   (C8_absent_focus_stability demoPane demoScreen MouseHandlers.fresh demoWP "s" false
      none 3 (by decide)).2 1 1 (by decide) (by decide) (by decide) (by decide)⟩

/-- **C9**: every entry of the virtual screen's per-window write-position
registry and every cursor and menu point is merged into the real screen
translated by `x' = x + xpos` and `y' = y + ypos - vertical_scroll`, with
width and height passing through unchanged — only vertical coordinates are
offset by the scroll, horizontal ones only by the viewport origin. -/
theorem C9_registry_translation (p : ScrollablePane) (screen : Screen)
    (m : MouseHandlers) (wp : WritePosition) (ps : String) (eb : Bool)
    (z : Option Int) (fw : Window) :
    (∀ w wpos,
      (temp_screen_of p wp ps eb z).visible_windows_to_write_positions w = some wpos →
      (write_to_screen p screen m wp ps eb z fw).screen.visible_windows_to_write_positions w =
        some ⟨wpos.xpos + wp.xpos,
          wpos.ypos + wp.ypos -
            (write_to_screen p screen m wp ps eb z fw).pane.vertical_scroll,
          wpos.width, wpos.height⟩) ∧
    (∀ w pt,
      (temp_screen_of p wp ps eb z).cursor_positions w = some pt →
      (write_to_screen p screen m wp ps eb z fw).screen.cursor_positions w =
        some ⟨pt.x + wp.xpos,
          pt.y + wp.ypos -
            (write_to_screen p screen m wp ps eb z fw).pane.vertical_scroll⟩) ∧
    (∀ w pt,
      (temp_screen_of p wp ps eb z).menu_positions w = some pt →
      (write_to_screen p screen m wp ps eb z fw).screen.menu_positions w =
        some ⟨pt.x + wp.xpos,
          pt.y + wp.ypos -
            (write_to_screen p screen m wp ps eb z fw).pane.vertical_scroll⟩) := by
  refine ⟨fun w wpos hw => ?_, fun w pt hw => ?_, fun w pt hw => ?_⟩ <;>
    simp only [write_to_screen, hw]

/-- Witness for C9: window `0`'s registry entry, cursor and menu point are
translated by `(+100, +200 - 10)`. -/
theorem C9_registry_translation_witness :
    (write_to_screen demoPane demoScreen MouseHandlers.fresh demoWP "s" false
        none 0).screen.visible_windows_to_write_positions 0 =
      some ⟨0 + demoWP.xpos,
        10 + demoWP.ypos -
          (write_to_screen demoPane demoScreen MouseHandlers.fresh demoWP "s" false
            none 0).pane.vertical_scroll, 8, 4⟩ ∧
    (write_to_screen demoPane demoScreen MouseHandlers.fresh demoWP "s" false
        none 0).screen.cursor_positions 0 =
      some ⟨1 + demoWP.xpos,
        12 + demoWP.ypos -
          (write_to_screen demoPane demoScreen MouseHandlers.fresh demoWP "s" false
            none 0).pane.vertical_scroll⟩ ∧
    (write_to_screen demoPane demoScreen MouseHandlers.fresh demoWP "s" false
        none 0).screen.menu_positions 0 =
      some ⟨0 + demoWP.xpos,
        11 + demoWP.ypos -
          (write_to_screen demoPane demoScreen MouseHandlers.fresh demoWP "s" false
            none 0).pane.vertical_scroll⟩ :=
  ⟨(C9_registry_translation demoPane demoScreen MouseHandlers.fresh demoWP "s" false
      none 0).1 0 ⟨0, 10, 8, 4⟩ (by decide),
   (C9_registry_translation demoPane demoScreen MouseHandlers.fresh demoWP "s" false
      none 0).2.1 0 ⟨1, 12⟩ (by decide),
   (C9_registry_translation demoPane demoScreen MouseHandlers.fresh demoWP "s" false
      none 0).2.2 0 ⟨0, 11⟩ (by decide)⟩

/-- **C10**: cells and zero-width-escape entries outside the viewport
rectangle are unchanged by the call, and the caller's `mouse_handlers`
object is never written to (the content renders into a fresh temporary
`MouseHandlers` that is discarded). -/
theorem C10_frame_effect (p : ScrollablePane) (screen : Screen)
    (m : MouseHandlers) (wp : WritePosition) (ps : String) (eb : Bool)
    (z : Option Int) (fw : Window) (px py : Int)
    (hout : px < wp.xpos ∨ wp.xpos + wp.width ≤ px ∨
      py < wp.ypos ∨ wp.ypos + wp.height ≤ py) :
    (write_to_screen p screen m wp ps eb z fw).screen.data_buffer py px =
      screen.data_buffer py px ∧
    (write_to_screen p screen m wp ps eb z fw).screen.zero_width_escapes py px =
      screen.zero_width_escapes py px ∧
    (write_to_screen p screen m wp ps eb z fw).mouse_handlers = m := by
  refine ⟨?_, ?_, rfl⟩
  · rw [write_to_screen_db_eq, copy_rows_db, if_neg (by omega)]
  · rw [write_to_screen_zwe_eq, copy_rows_zwe, if_neg (by omega)]

/-- Witness for C10: the origin `(0, 0)` lies outside the viewport at
`(100, 200)`, and keeps both its cell and its escape entry; the handler
map is returned as passed. -/
theorem C10_frame_effect_witness :
    (write_to_screen demoPane demoScreen MouseHandlers.fresh demoWP "s" false
        none 0).screen.data_buffer 0 0 = demoScreen.data_buffer 0 0 ∧
    (write_to_screen demoPane demoScreen MouseHandlers.fresh demoWP "s" false
        none 0).screen.zero_width_escapes 0 0 = demoScreen.zero_width_escapes 0 0 ∧
    (write_to_screen demoPane demoScreen MouseHandlers.fresh demoWP "s" false
        none 0).mouse_handlers = MouseHandlers.fresh :=
  C10_frame_effect demoPane demoScreen MouseHandlers.fresh demoWP "s" false none 0
    0 0 (by decide)

end ScrollablePaneSpec
